import Mathlib

/-!
Verification development for the data-center power-system study cost
estimator (`src/app.py`).  Real arithmetic is embedded exactly as `ℚ`;
counts are `ℤ`/`ℕ`; `math.ceil` is `Int.ceil`.  The study-cost engine
(`calculate_project_cost`) is translated from the source.  The bus-count
estimator is not present in the source (the app delegates it to a
separate tool), so it is modelled from the specification where a claim
needs it.
-/

namespace DCBus

/-- Tier levels, from the sidebar selectbox "Tier I" .. "Tier IV". -/
inductive TierLevel
| tierI
| tierII
| tierIII
| tierIV
deriving DecidableEq

/-- Delivery type, "Standard" or "Urgent". -/
inductive DeliveryType
| Standard
| Urgent
deriving DecidableEq

/-- Report formats, "Basic PDF", "Detailed Report with Appendices",
"Client-Branded Report". -/
inductive ReportFormat
| BasicPDF
| DetailedReport
| ClientBranded
deriving DecidableEq

/-- The four study types keyed in `STUDIES_DATA`. -/
inductive StudyType
| load_flow
| short_circuit
| pdc
| arc_flash
deriving DecidableEq

/-- `TIER_FACTORS` lookup table (app.py line 174). -/
def TIER_FACTORS : TierLevel → ℚ
| .tierI => 1.0
| .tierII => 1.2
| .tierIII => 1.5
| .tierIV => 2.0

/-- `BUS_PER_MW` lookup table (app.py line 175). -/
def BUS_PER_MW : TierLevel → ℚ
| .tierI => 1.5
| .tierII => 1.7
| .tierIII => 2.0
| .tierIV => 2.3

/-- `base_hours_per_bus` field of `STUDIES_DATA` (app.py lines 177-206). -/
def base_hours_per_bus : StudyType → ℚ
| .load_flow => 0.8
| .short_circuit => 1.0
| .pdc => 1.5
| .arc_flash => 1.2

/-- `REPORT_MULTIPLIERS` lookup table (app.py line 214). -/
def REPORT_MULTIPLIERS : ReportFormat → ℚ
| .BasicPDF => 1.0
| .DetailedReport => 1.8
| .ClientBranded => 2.2

/-- The module-level inputs read from the sidebar that feed
`calculate_project_cost` (app.py lines 105-167).  Allocation inputs are
the raw slider values divided by 100, before normalization. -/
structure StudyCostConfig where
  it_capacity : ℚ
  mechanical_load : ℚ
  house_load : ℚ
  tier_level : TierLevel
  delivery_type : DeliveryType
  report_format : ReportFormat
  studies_selected : StudyType → Bool
  client_meetings : ℕ
  custom_margin : ℚ
  bus_calibration : ℚ
  load_flow_factor : ℚ
  short_circuit_factor : ℚ
  pdc_factor : ℚ
  arc_flash_factor : ℚ
  senior_allocation_input : ℚ
  mid_allocation_input : ℚ
  junior_allocation_input : ℚ
  senior_rate : ℚ
  mid_rate : ℚ
  junior_rate : ℚ
  meeting_cost : ℚ
  urgency_multiplier : ℚ

/-- `calibration_factor` field of `STUDIES_DATA`, bound to the four
study sliders (app.py lines 140-143 and 177-206). -/
def calibration_factor (c : StudyCostConfig) : StudyType → ℚ
| .load_flow => c.load_flow_factor
| .short_circuit => c.short_circuit_factor
| .pdc => c.pdc_factor
| .arc_flash => c.arc_flash_factor

/-- `total_allocation = senior + mid + junior` (app.py line 152). -/
def total_allocation (c : StudyCostConfig) : ℚ :=
  c.senior_allocation_input + c.mid_allocation_input + c.junior_allocation_input

/-- Senior allocation after the normalization at app.py lines 153-156. -/
def senior_allocation (c : StudyCostConfig) : ℚ :=
  if total_allocation c = 1 then c.senior_allocation_input
  else c.senior_allocation_input / total_allocation c

/-- Mid allocation after the normalization at app.py lines 153-156. -/
def mid_allocation (c : StudyCostConfig) : ℚ :=
  if total_allocation c = 1 then c.mid_allocation_input
  else c.mid_allocation_input / total_allocation c

/-- Junior allocation after the normalization at app.py lines 153-156. -/
def junior_allocation (c : StudyCostConfig) : ℚ :=
  if total_allocation c = 1 then c.junior_allocation_input
  else c.junior_allocation_input / total_allocation c

/-- `total_load = it_capacity + mechanical_load + house_load`
(app.py line 219). -/
def total_load (c : StudyCostConfig) : ℚ :=
  c.it_capacity + c.mechanical_load + c.house_load

/-- `estimated_buses = math.ceil(total_load * BUS_PER_MW[tier_level] *
bus_calibration)` (app.py line 222). -/
def estimated_buses (c : StudyCostConfig) : ℤ :=
  ⌈total_load c * BUS_PER_MW c.tier_level * c.bus_calibration⌉

/-- `tier_complexity = TIER_FACTORS[tier_level]` (app.py line 260). -/
def tier_complexity (c : StudyCostConfig) : ℚ :=
  TIER_FACTORS c.tier_level

/-- `rate_multiplier = urgency_multiplier if delivery_type == "Urgent"
else 1.0` (app.py line 278). -/
def rate_multiplier (c : StudyCostConfig) : ℚ :=
  if c.delivery_type = DeliveryType.Urgent then c.urgency_multiplier else 1

/-- `study_hours = estimated_buses * base_hours_per_bus *
calibration_factor * tier_complexity` (app.py lines 265-268). -/
def study_hours (c : StudyCostConfig) (s : StudyType) : ℚ :=
  (estimated_buses c : ℚ) * base_hours_per_bus s * calibration_factor c s *
    tier_complexity c

/-- The per-study record stored in `results['studies'][study_key]`
(app.py lines 288-300); the display-only fields (name, emoji,
complexity) are omitted. -/
structure StudyResult where
  hours : ℚ
  senior_hours : ℚ
  mid_hours : ℚ
  junior_hours : ℚ
  senior_cost : ℚ
  mid_cost : ℚ
  junior_cost : ℚ
  total_cost : ℚ
deriving DecidableEq

/-- One iteration body of the study loop (app.py lines 262-300). -/
def study_result (c : StudyCostConfig) (s : StudyType) : StudyResult :=
  let h := study_hours c s
  let sh := h * senior_allocation c
  let mh := h * mid_allocation c
  let jh := h * junior_allocation c
  let m := rate_multiplier c
  let sc := sh * c.senior_rate * m
  let mc := mh * c.mid_rate * m
  let jc := jh * c.junior_rate * m
  { hours := h
    senior_hours := sh
    mid_hours := mh
    junior_hours := jh
    senior_cost := sc
    mid_cost := mc
    junior_cost := jc
    total_cost := sc + mc + jc }

/-- Insertion order of `STUDIES_DATA` (app.py lines 177-206), which is
the iteration order of the study loop. -/
def STUDY_KEYS : List StudyType :=
  [.load_flow, .short_circuit, .pdc, .arc_flash]

/-- The study keys for which `studies_selected.get(study_key, False)`
holds, in loop order (app.py line 263). -/
def selected_studies (c : StudyCostConfig) : List StudyType :=
  STUDY_KEYS.filter (fun s => c.studies_selected s)

/-- `results['costs']` (app.py lines 310-318). -/
structure Costs where
  total_study_cost : ℚ
  meeting_cost : ℚ
  report_cost : ℚ
  subtotal : ℚ
  margin_amount : ℚ
  total_cost : ℚ
  total_hours : ℚ
deriving DecidableEq

/-- The result record of `calculate_project_cost`; project-info string
fields and the calibration echo block are omitted, the numeric fields
are kept. -/
structure Results where
  total_load : ℚ
  estimated_buses : ℤ
  studies : List (StudyType × StudyResult)
  costs : Costs
deriving DecidableEq

/-- `calculate_project_cost` (app.py lines 217-320): per-study hours and
costs for the selected studies, then meeting cost, report cost,
subtotal, margin and total. -/
def calculate_project_cost (c : StudyCostConfig) : Results :=
  let studies := (selected_studies c).map (fun s => (s, study_result c s))
  let total_study_hours := (studies.map (fun p => p.2.hours)).sum
  let total_study_cost := (studies.map (fun p => p.2.total_cost)).sum
  let total_meeting_cost := (c.client_meetings : ℚ) * c.meeting_cost
  let report_cost := 15000 * REPORT_MULTIPLIERS c.report_format
  let subtotal := total_study_cost + total_meeting_cost + report_cost
  let total_cost := subtotal * (1 + c.custom_margin / 100)
  { total_load := total_load c
    estimated_buses := estimated_buses c
    studies := studies
    costs :=
      { total_study_cost := total_study_cost
        meeting_cost := total_meeting_cost
        report_cost := report_cost
        subtotal := subtotal
        margin_amount := subtotal * (c.custom_margin / 100)
        total_cost := total_cost
        total_hours := total_study_hours } }

/-- The sidebar default configuration (app.py lines 105-167) with every
study checkbox cleared: it_capacity 5.0, mechanical_load 2.0, house_load
0.5, Tier III, Standard delivery, detailed report, 2 meetings at 8000,
margin 15, all calibration factors 1.0, allocations 20/30/50,
rates 1200/650/350, urgency multiplier 1.3. -/
def defaultNoStudies : StudyCostConfig where
  it_capacity := 5
  mechanical_load := 2
  house_load := 0.5
  tier_level := .tierIII
  delivery_type := .Standard
  report_format := .DetailedReport
  studies_selected := fun _ => false
  client_meetings := 2
  custom_margin := 15
  bus_calibration := 1
  load_flow_factor := 1
  short_circuit_factor := 1
  pdc_factor := 1
  arc_flash_factor := 1
  senior_allocation_input := 0.2
  mid_allocation_input := 0.3
  junior_allocation_input := 0.5
  senior_rate := 1200
  mid_rate := 650
  junior_rate := 350
  meeting_cost := 8000
  urgency_multiplier := 1.3

/-- The default configuration with exactly the Load Flow study selected
(the spec's worked example for the cost estimator). -/
def loadFlowOnly : StudyCostConfig :=
  { defaultNoStudies with
    studies_selected := fun s =>
      match s with
      | .load_flow => true
      | _ => false }

/-- The default configuration with inputs whose allocation fractions sum
to 1.1 rather than 1, exercising the renormalization branch. -/
def unnormalizedAlloc : StudyCostConfig :=
  { defaultNoStudies with
    junior_allocation_input := 0.6 }

/-- Bundled non-negativity of every numeric input of a
`StudyCostConfig` (the sidebar sliders only produce such values). -/
def NonnegConfig (c : StudyCostConfig) : Prop :=
  0 ≤ c.it_capacity ∧ 0 ≤ c.mechanical_load ∧ 0 ≤ c.house_load ∧
  0 ≤ c.custom_margin ∧ 0 ≤ c.bus_calibration ∧
  0 ≤ c.load_flow_factor ∧ 0 ≤ c.short_circuit_factor ∧
  0 ≤ c.pdc_factor ∧ 0 ≤ c.arc_flash_factor ∧
  0 ≤ c.senior_allocation_input ∧ 0 ≤ c.mid_allocation_input ∧
  0 ≤ c.junior_allocation_input ∧
  0 ≤ c.senior_rate ∧ 0 ≤ c.mid_rate ∧ 0 ≤ c.junior_rate ∧
  0 ≤ c.meeting_cost ∧ 0 ≤ c.urgency_multiplier

/-- Data-center type of the bus-count estimator. -/
inductive DcType
| Enterprise
| Hyperscale
| AiHpc
deriving DecidableEq

/-- Redundancy tier of the bus-count estimator: N, N+1 or 2N. -/
inductive RedundancyTier
| N
| Nplus1
| TwoN
deriving DecidableEq

/-- Cooling type of the bus-count estimator. -/
inductive CoolingType
| Air
| Liquid
deriving DecidableEq

/-- Climate category of the bus-count estimator. -/
inductive Climate
| Temperate
| Cold
| HotHumid
deriving DecidableEq

/-- Load specification: exactly one of IT load or total facility load is
the independent variable. -/
inductive LoadSpec
| itLoad (mw : ℚ)
| facilityLoad (mw : ℚ)
deriving DecidableEq

/-- The raw megawatt figure of a load specification. -/
def LoadSpec.loadMW : LoadSpec → ℚ
| .itLoad mw => mw
| .facilityLoad mw => mw

/-- Modelled from the spec: the `BusCountConfig` record of the
bus-count estimator, which is absent from the source (the app delegates
bus counting to a separate tool). -/
structure BusCountConfig where
  load : LoadSpec
  pue : ℚ
  dcType : DcType
  mechanicalFraction : ℚ
  redundancyTier : RedundancyTier
  upsLineupMW : ℚ
  transformerMVA : ℚ
  lvBusMW : ℚ
  pduMVA : ℚ
  mvBusesBase : ℕ
  voltageLevels : ℕ
  backupGenerators : ℕ
  coolingType : CoolingType
  climate : Climate
  expansionFactor : ℚ
  powerFactor : ℚ
  utilityIncomers : ℕ
deriving DecidableEq

/-- Modelled from the spec: PUE adjustment by data-center type,
absent from the source (−0.2 for AI/HPC, −0.1 for Hyperscale,
0 otherwise). -/
def pueAdjustment : DcType → ℚ
| .AiHpc => -0.2
| .Hyperscale => -0.1
| .Enterprise => 0

/-- Modelled from the spec: `adjustedPUE = max(1.1, pue +
pueAdjustment(dcType))`, absent from the source. -/
def adjustedPUE (c : BusCountConfig) : ℚ :=
  max 1.1 (c.pue + pueAdjustment c.dcType)

/-- Modelled from the spec: IT load in MW, absent from the source
(given directly, or derived as total / adjustedPUE). -/
def itMW (c : BusCountConfig) : ℚ :=
  match c.load with
  | .itLoad mw => mw
  | .facilityLoad mw => mw / adjustedPUE c

/-- Modelled from the spec: total facility load in MW, absent from the
source (derived as adjustedPUE * itLoad, or given directly). -/
def totalMW (c : BusCountConfig) : ℚ :=
  match c.load with
  | .itLoad mw => adjustedPUE c * mw
  | .facilityLoad mw => mw

/-- Modelled from the spec: `nonItMW = totalMW - itMW`, absent from the
source. -/
def nonItMW (c : BusCountConfig) : ℚ :=
  totalMW c - itMW c

/-- Modelled from the spec: cooling multiplier (1.2 if liquid-cooled,
else 1.0), absent from the source. -/
def coolingMult (c : BusCountConfig) : ℚ :=
  if c.coolingType = CoolingType.Liquid then 1.2 else 1

/-- Modelled from the spec: climate multiplier (0.9 Cold, 1.1
Hot/Humid, else 1.0), absent from the source. -/
def climateMult (c : BusCountConfig) : ℚ :=
  match c.climate with
  | .Cold => 0.9
  | .HotHumid => 1.1
  | .Temperate => 1

/-- Modelled from the spec: `mechMW = mechanicalFraction * nonItMW *
coolingMult * climateMult`, absent from the source. -/
def mechMW (c : BusCountConfig) : ℚ :=
  c.mechanicalFraction * nonItMW c * coolingMult c * climateMult c

/-- Modelled from the spec: `houseMW = nonItMW -
mechMW/(coolingMult*climateMult)`, absent from the source. -/
def houseMW (c : BusCountConfig) : ℚ :=
  nonItMW c - mechMW c / (coolingMult c * climateMult c)

/-- Modelled from the spec: LV-IT PCC count = ceil(itMW / lvBusMW),
absent from the source. -/
def lvItCount (c : BusCountConfig) : ℤ :=
  ⌈itMW c / c.lvBusMW⌉

/-- Modelled from the spec: LV-mechanical MCC count = ceil(mechMW /
lvBusMW), absent from the source. -/
def lvMechCount (c : BusCountConfig) : ℤ :=
  ⌈mechMW c / c.lvBusMW⌉

/-- Modelled from the spec: LV-house PCC count = ceil(houseMW /
lvBusMW), absent from the source. -/
def lvHouseCount (c : BusCountConfig) : ℤ :=
  ⌈houseMW c / c.lvBusMW⌉

/-- Modelled from the spec: LV total = sum of the three LV counts,
absent from the source. -/
def lvTotalCount (c : BusCountConfig) : ℤ :=
  lvItCount c + lvMechCount c + lvHouseCount c

/-- Modelled from the spec: UPS lineups (= UPS output buses) =
ceil(itMW / upsLineupMW), absent from the source. -/
def upsCount (c : BusCountConfig) : ℤ :=
  ⌈itMW c / c.upsLineupMW⌉

/-- Modelled from the spec: PDU count = ceil(itMW / pduMVA), absent
from the source. -/
def pduCount (c : BusCountConfig) : ℤ :=
  ⌈itMW c / c.pduMVA⌉

/-- Modelled from the spec: N-configuration transformer count =
ceil(totalMW / (transformerMVA * powerFactor)), absent from the
source. -/
def transformerCountN (c : BusCountConfig) : ℤ :=
  ⌈totalMW c / (c.transformerMVA * c.powerFactor)⌉

/-- Modelled from the spec: MV bus count = mvBusesBase +
(utilityIncomers − 1), absent from the source. -/
def mvBusCount (c : BusCountConfig) : ℤ :=
  (c.mvBusesBase : ℤ) + ((c.utilityIncomers : ℤ) - 1)

/-- Modelled from the spec: voltage-level additions = (voltageLevels−2)
× (transformerCountN+1) when voltageLevels > 2, else 0, absent from the
source. -/
def voltageAdditions (c : BusCountConfig) : ℤ :=
  if 2 < c.voltageLevels then ((c.voltageLevels : ℤ) - 2) * (transformerCountN c + 1)
  else 0

/-- Modelled from the spec: generator additions = backupGenerators × 2,
absent from the source. -/
def generatorAdditions (c : BusCountConfig) : ℤ :=
  (c.backupGenerators : ℤ) * 2

/-- Modelled from the spec: the core N-configuration bus count, absent
from the source. -/
def coreN (c : BusCountConfig) : ℤ :=
  mvBusCount c + transformerCountN c + lvTotalCount c + upsCount c +
    pduCount c + voltageAdditions c + generatorAdditions c

/-- Modelled from the spec: the redundancy-expanded total before the
final ceiling, absent from the source.  N keeps the core sum; N+1 adds
one transformer (all else unchanged) and multiplies by 1.15; 2N doubles
MV, transformers, LV and UPS, multiplies PDUs by 1.5 and doubles the
voltage and generator additions. -/
def totalBeforeCeil (c : BusCountConfig) : ℚ :=
  match c.redundancyTier with
  | .N => (coreN c : ℚ) * c.expansionFactor
  | .Nplus1 => ((coreN c : ℚ) + 1) * c.expansionFactor * 1.15
  | .TwoN =>
      (2 * (mvBusCount c : ℚ) + 2 * (transformerCountN c : ℚ) +
        2 * (lvTotalCount c : ℚ) + 2 * (upsCount c : ℚ) +
        1.5 * (pduCount c : ℚ) +
        2 * ((voltageAdditions c : ℚ) + (generatorAdditions c : ℚ))) *
        c.expansionFactor

/-- Modelled from the spec: `totalBuses = ceil(total)`, absent from the
source. -/
def totalBuses (c : BusCountConfig) : ℤ :=
  ⌈totalBeforeCeil c⌉

/-- A config satisfying the data-model constraints of the spec: positive
load, positive equipment capacities and power factor, expansion factor
at least 1, mechanical fraction in [0.5, 0.9], at least one utility
incomer. -/
abbrev ValidBusCountConfig (c : BusCountConfig) : Prop :=
  0 < c.load.loadMW ∧ 0 < c.upsLineupMW ∧ 0 < c.transformerMVA ∧
  0 < c.lvBusMW ∧ 0 < c.pduMVA ∧ 0 < c.powerFactor ∧ c.powerFactor ≤ 1 ∧
  1 ≤ c.expansionFactor ∧ 1/2 ≤ c.mechanicalFraction ∧
  c.mechanicalFraction ≤ 9/10 ∧ 1 ≤ c.utilityIncomers

/-- The spec's worked example for the bus estimator: itLoadMW 5.0, pue
1.56, Enterprise, default capacities, redundancy tier N. -/
def busExample : BusCountConfig where
  load := .itLoad 5
  pue := 1.56
  dcType := .Enterprise
  mechanicalFraction := 0.7
  redundancyTier := .N
  upsLineupMW := 1.5
  transformerMVA := 3
  lvBusMW := 3
  pduMVA := 0.3
  mvBusesBase := 2
  voltageLevels := 2
  backupGenerators := 0
  coolingType := .Air
  climate := .Temperate
  expansionFactor := 1
  powerFactor := 0.95
  utilityIncomers := 1

/-- Every study key is in the iteration list. -/
theorem mem_STUDY_KEYS (s : StudyType) : s ∈ STUDY_KEYS := by
  cases s <;> simp [STUDY_KEYS]

/-- The studies field of the result is the mapped selection list. -/
theorem studies_eq (c : StudyCostConfig) :
    (calculate_project_cost c).studies =
      (selected_studies c).map (fun s => (s, study_result c s)) := rfl

/-- A selected study contributes its `study_result` record to the
breakdown. -/
theorem mem_studies_of_selected (c : StudyCostConfig) (s : StudyType)
    (h : c.studies_selected s = true) :
    (s, study_result c s) ∈ (calculate_project_cost c).studies := by
  rw [studies_eq]
  exact List.mem_map_of_mem _ (List.mem_filter.mpr ⟨mem_STUDY_KEYS s, h⟩)

/-- Every entry of the breakdown is the `study_result` record of a
selected study. -/
theorem of_mem_studies (c : StudyCostConfig) (p : StudyType × StudyResult)
    (hp : p ∈ (calculate_project_cost c).studies) :
    c.studies_selected p.1 = true ∧ p = (p.1, study_result c p.1) := by
  rw [studies_eq] at hp
  rcases List.mem_map.mp hp with ⟨s, hs, hps⟩
  rcases List.mem_filter.mp hs with ⟨-, hsel⟩
  cases hps
  exact ⟨hsel, rfl⟩

/-- C1 counterexample: at the sidebar defaults with every study
checkbox cleared, the breakdown is empty but the total cost is 49450,
not zero (meeting and report costs still accrue). -/
theorem emptySelection_totalCost_counterexample :
    defaultNoStudies.studies_selected StudyType.load_flow = false ∧
    defaultNoStudies.studies_selected StudyType.short_circuit = false ∧
    defaultNoStudies.studies_selected StudyType.pdc = false ∧
    defaultNoStudies.studies_selected StudyType.arc_flash = false ∧
    (calculate_project_cost defaultNoStudies).studies = [] ∧
    (calculate_project_cost defaultNoStudies).costs.total_cost = 49450 ∧
    (calculate_project_cost defaultNoStudies).costs.total_cost ≠ 0 := by
  refine ⟨rfl, rfl, rfl, rfl, ?_, ?_, ?_⟩ <;>
    norm_num [calculate_project_cost, selected_studies, STUDY_KEYS,
      REPORT_MULTIPLIERS, defaultNoStudies]

/-- C1 (amended): with no study selected, the result has an empty
per-study breakdown, zero study cost and zero total hours, and its
total cost is the meeting plus report cost marked up by the margin. -/
theorem emptySelection_result (c : StudyCostConfig)
    (h : ∀ s, c.studies_selected s = false) :
    (calculate_project_cost c).studies = [] ∧
    (calculate_project_cost c).costs.total_study_cost = 0 ∧
    (calculate_project_cost c).costs.total_hours = 0 ∧
    (calculate_project_cost c).costs.total_cost =
      ((c.client_meetings : ℚ) * c.meeting_cost +
        15000 * REPORT_MULTIPLIERS c.report_format) * (1 + c.custom_margin / 100) := by
  have hsel : selected_studies c = [] := by
    simp [selected_studies, STUDY_KEYS, h]
  refine ⟨?_, ?_, ?_, ?_⟩ <;>
    simp [calculate_project_cost, hsel]

/-- C1 witness: the amended statement at the default configuration. -/
theorem emptySelection_result_witness :
    (calculate_project_cost defaultNoStudies).studies = [] ∧
    (calculate_project_cost defaultNoStudies).costs.total_study_cost = 0 ∧
    (calculate_project_cost defaultNoStudies).costs.total_hours = 0 ∧
    (calculate_project_cost defaultNoStudies).costs.total_cost =
      ((defaultNoStudies.client_meetings : ℚ) * defaultNoStudies.meeting_cost +
        15000 * REPORT_MULTIPLIERS defaultNoStudies.report_format) *
        (1 + defaultNoStudies.custom_margin / 100) :=
  emptySelection_result defaultNoStudies (fun _ => rfl)

/-- C2: subtotal is the sum of study, meeting and report costs; the
margin amount is subtotal times margin/100; the total cost is subtotal
plus margin amount, which equals the three-way sum marked up by
(1 + margin/100). -/
theorem cost_additivity (c : StudyCostConfig) :
    (calculate_project_cost c).costs.subtotal =
      (calculate_project_cost c).costs.total_study_cost +
        (calculate_project_cost c).costs.meeting_cost +
        (calculate_project_cost c).costs.report_cost ∧
    (calculate_project_cost c).costs.margin_amount =
      (calculate_project_cost c).costs.subtotal * (c.custom_margin / 100) ∧
    (calculate_project_cost c).costs.total_cost =
      (calculate_project_cost c).costs.subtotal +
        (calculate_project_cost c).costs.margin_amount ∧
    (calculate_project_cost c).costs.total_cost =
      ((calculate_project_cost c).costs.total_study_cost +
        (calculate_project_cost c).costs.meeting_cost +
        (calculate_project_cost c).costs.report_cost) * (1 + c.custom_margin / 100) := by
  refine ⟨rfl, rfl, ?_, rfl⟩
  simp only [calculate_project_cost]
  ring

/-- C3: the result's total load is the sum of the three load inputs,
its bus count is the ceiling of total load times the BUS_PER_MW tier
entry times the bus calibration factor, and BUS_PER_MW maps the four
tiers to 1.5, 1.7, 2.0 and 2.3. -/
theorem load_and_bus_formula (c : StudyCostConfig) :
    (calculate_project_cost c).total_load =
      c.it_capacity + c.mechanical_load + c.house_load ∧
    (calculate_project_cost c).estimated_buses =
      ⌈(c.it_capacity + c.mechanical_load + c.house_load) *
        BUS_PER_MW c.tier_level * c.bus_calibration⌉ ∧
    BUS_PER_MW .tierI = 1.5 ∧ BUS_PER_MW .tierII = 1.7 ∧
    BUS_PER_MW .tierIII = 2.0 ∧ BUS_PER_MW .tierIV = 2.3 :=
  ⟨rfl, rfl, rfl, rfl, rfl, rfl⟩

/-- C8: at itCapacity 5.0, mechanicalLoad 2.0, houseLoad 0.5, Tier III,
bus calibration 1.0 and only the Load Flow study selected at
calibration 1.0, the result has total load 7.5, 15 estimated buses and
Load Flow hours 18. -/
theorem example_scenario :
    loadFlowOnly.studies_selected StudyType.load_flow = true ∧
    loadFlowOnly.studies_selected StudyType.short_circuit = false ∧
    loadFlowOnly.studies_selected StudyType.pdc = false ∧
    loadFlowOnly.studies_selected StudyType.arc_flash = false ∧
    loadFlowOnly.bus_calibration = 1 ∧
    loadFlowOnly.load_flow_factor = 1 ∧
    (calculate_project_cost loadFlowOnly).total_load = 7.5 ∧
    (calculate_project_cost loadFlowOnly).estimated_buses = 15 ∧
    (calculate_project_cost loadFlowOnly).studies.map (fun p => (p.1, p.2.hours)) =
      [(StudyType.load_flow, 18)] := by
  refine ⟨rfl, rfl, rfl, rfl, rfl, rfl, ?_, ?_, ?_⟩
  · norm_num [calculate_project_cost, total_load, loadFlowOnly, defaultNoStudies]
  · norm_num [calculate_project_cost, estimated_buses, total_load, BUS_PER_MW,
      loadFlowOnly, defaultNoStudies]
  · norm_num [calculate_project_cost, selected_studies, STUDY_KEYS, study_result,
      study_hours, estimated_buses, total_load, tier_complexity, rate_multiplier,
      calibration_factor, base_hours_per_bus, TIER_FACTORS, BUS_PER_MW,
      loadFlowOnly, defaultNoStudies]

/-- C4: a selected study's breakdown record reports hours equal to
estimated buses times base hours per bus times the study's calibration
factor times the tier complexity, with tier complexity 1.0/1.2/1.5/2.0
over the four tiers and base hours 0.8/1.0/1.5/1.2 over the four study
types. -/
theorem study_hours_formula (c : StudyCostConfig) (s : StudyType)
    (h : c.studies_selected s = true) :
    (s, study_result c s) ∈ (calculate_project_cost c).studies ∧
    (study_result c s).hours =
      ((calculate_project_cost c).estimated_buses : ℚ) * base_hours_per_bus s *
        calibration_factor c s * TIER_FACTORS c.tier_level ∧
    (TIER_FACTORS .tierI = 1.0 ∧ TIER_FACTORS .tierII = 1.2 ∧
      TIER_FACTORS .tierIII = 1.5 ∧ TIER_FACTORS .tierIV = 2.0) ∧
    (base_hours_per_bus .load_flow = 0.8 ∧ base_hours_per_bus .short_circuit = 1.0 ∧
      base_hours_per_bus .pdc = 1.5 ∧ base_hours_per_bus .arc_flash = 1.2) :=
  ⟨mem_studies_of_selected c s h, rfl, ⟨rfl, rfl, rfl, rfl⟩, ⟨rfl, rfl, rfl, rfl⟩⟩

/-- C4 witness: the Load Flow study of the worked-example configuration
is in the breakdown with the stated hours. -/
theorem study_hours_formula_witness :
    (StudyType.load_flow, study_result loadFlowOnly StudyType.load_flow) ∈
      (calculate_project_cost loadFlowOnly).studies ∧
    (study_result loadFlowOnly StudyType.load_flow).hours =
      ((calculate_project_cost loadFlowOnly).estimated_buses : ℚ) *
        base_hours_per_bus StudyType.load_flow *
        calibration_factor loadFlowOnly StudyType.load_flow *
        TIER_FACTORS loadFlowOnly.tier_level :=
  ⟨(study_hours_formula loadFlowOnly StudyType.load_flow rfl).1,
   (study_hours_formula loadFlowOnly StudyType.load_flow rfl).2.1⟩

/-- C5: for every breakdown entry, each grade's cost is that grade's
hours times its rate times the urgency multiplier (the configured one
under Urgent delivery, 1 otherwise), and the study total cost is the
sum of the three grade costs. -/
theorem grade_cost_formula (c : StudyCostConfig) (p : StudyType × StudyResult)
    (hp : p ∈ (calculate_project_cost c).studies) :
    p.2.senior_cost = p.2.senior_hours * c.senior_rate * rate_multiplier c ∧
    p.2.mid_cost = p.2.mid_hours * c.mid_rate * rate_multiplier c ∧
    p.2.junior_cost = p.2.junior_hours * c.junior_rate * rate_multiplier c ∧
    p.2.total_cost = p.2.senior_cost + p.2.mid_cost + p.2.junior_cost ∧
    rate_multiplier c =
      (if c.delivery_type = DeliveryType.Urgent then c.urgency_multiplier else 1) := by
  obtain ⟨-, hps⟩ := of_mem_studies c p hp
  rw [hps]
  exact ⟨rfl, rfl, rfl, rfl, rfl⟩

/-- C5 witness: the grade-cost equations at the Load Flow entry of the
worked-example configuration. -/
theorem grade_cost_formula_witness :
    (study_result loadFlowOnly StudyType.load_flow).total_cost =
      (study_result loadFlowOnly StudyType.load_flow).senior_cost +
        (study_result loadFlowOnly StudyType.load_flow).mid_cost +
        (study_result loadFlowOnly StudyType.load_flow).junior_cost :=
  (grade_cost_formula loadFlowOnly
    (StudyType.load_flow, study_result loadFlowOnly StudyType.load_flow)
    (mem_studies_of_selected loadFlowOnly StudyType.load_flow rfl)).2.2.2.1

/-- C6: when the allocation inputs have positive sum, the fractions in
use are each input divided by the sum whenever the inputs do not sum to
exactly 1, and the fractions in use always sum to exactly 1 (hence
within 1e-9). -/
theorem allocation_normalization (c : StudyCostConfig)
    (h : 0 < total_allocation c) :
    (total_allocation c ≠ 1 →
      senior_allocation c = c.senior_allocation_input / total_allocation c ∧
      mid_allocation c = c.mid_allocation_input / total_allocation c ∧
      junior_allocation c = c.junior_allocation_input / total_allocation c) ∧
    senior_allocation c + mid_allocation c + junior_allocation c = 1 ∧
    |senior_allocation c + mid_allocation c + junior_allocation c - 1| ≤ 1e-9 := by
  have hne : total_allocation c ≠ 0 := ne_of_gt h
  have hsum : senior_allocation c + mid_allocation c + junior_allocation c = 1 := by
    by_cases h1 : total_allocation c = 1
    · simp only [senior_allocation, mid_allocation, junior_allocation, if_pos h1]
      exact h1
    · simp only [senior_allocation, mid_allocation, junior_allocation, if_neg h1]
      rw [div_add_div_same, div_add_div_same, div_eq_one_iff_eq hne]
      rfl
  refine ⟨fun h1 => ⟨if_neg h1, if_neg h1, if_neg h1⟩, hsum, ?_⟩
  rw [hsum]
  norm_num

/-- C6 witness: allocation inputs 0.2/0.3/0.6 sum to 1.1; the fractions
in use are renormalized and sum to exactly 1. -/
theorem allocation_normalization_witness :
    0 < total_allocation unnormalizedAlloc ∧
    total_allocation unnormalizedAlloc ≠ 1 ∧
    senior_allocation unnormalizedAlloc =
      unnormalizedAlloc.senior_allocation_input / total_allocation unnormalizedAlloc ∧
    senior_allocation unnormalizedAlloc + mid_allocation unnormalizedAlloc +
      junior_allocation unnormalizedAlloc = 1 := by
  have h : 0 < total_allocation unnormalizedAlloc := by
    norm_num [total_allocation, unnormalizedAlloc, defaultNoStudies]
  have h1 : total_allocation unnormalizedAlloc ≠ 1 := by
    norm_num [total_allocation, unnormalizedAlloc, defaultNoStudies]
  exact ⟨h, h1, ((allocation_normalization unnormalizedAlloc h).1 h1).1,
    (allocation_normalization unnormalizedAlloc h).2.1⟩

/-- C10: the breakdown lists exactly the selected study types, the
result's total hours and study cost are the sums over the breakdown,
and when the fractions in use sum to 1 each entry's grade hours sum to
its hours. -/
theorem result_internal_consistency (c : StudyCostConfig) :
    (∀ s : StudyType,
      (∃ r, (s, r) ∈ (calculate_project_cost c).studies) ↔
        c.studies_selected s = true) ∧
    (calculate_project_cost c).costs.total_hours =
      ((calculate_project_cost c).studies.map (fun p => p.2.hours)).sum ∧
    (calculate_project_cost c).costs.total_study_cost =
      ((calculate_project_cost c).studies.map (fun p => p.2.total_cost)).sum ∧
    (senior_allocation c + mid_allocation c + junior_allocation c = 1 →
      ∀ p ∈ (calculate_project_cost c).studies,
        p.2.senior_hours + p.2.mid_hours + p.2.junior_hours = p.2.hours) := by
  refine ⟨fun s => ?_, rfl, rfl, fun h1 p hp => ?_⟩
  · constructor
    · rintro ⟨r, hr⟩
      exact (of_mem_studies c (s, r) hr).1
    · intro hsel
      exact ⟨study_result c s, mem_studies_of_selected c s hsel⟩
  · obtain ⟨-, hps⟩ := of_mem_studies c p hp
    rw [hps]
    show study_hours c p.1 * senior_allocation c + study_hours c p.1 * mid_allocation c +
      study_hours c p.1 * junior_allocation c = study_hours c p.1
    calc study_hours c p.1 * senior_allocation c + study_hours c p.1 * mid_allocation c +
        study_hours c p.1 * junior_allocation c
      = study_hours c p.1 *
          (senior_allocation c + mid_allocation c + junior_allocation c) := by ring
    _ = study_hours c p.1 := by rw [h1, mul_one]

/-- C10 witness: at the worked-example configuration the fractions sum
to 1 and the Load Flow entry's grade hours sum to its hours. -/
theorem result_internal_consistency_witness :
    (study_result loadFlowOnly StudyType.load_flow).senior_hours +
      (study_result loadFlowOnly StudyType.load_flow).mid_hours +
      (study_result loadFlowOnly StudyType.load_flow).junior_hours =
      (study_result loadFlowOnly StudyType.load_flow).hours :=
  (result_internal_consistency loadFlowOnly).2.2.2
    (by norm_num [senior_allocation, mid_allocation, junior_allocation,
      total_allocation, loadFlowOnly, defaultNoStudies])
    (StudyType.load_flow, study_result loadFlowOnly StudyType.load_flow)
    (mem_studies_of_selected loadFlowOnly StudyType.load_flow rfl)

/-- The BUS_PER_MW table only holds non-negative entries. -/
theorem BUS_PER_MW_nonneg (t : TierLevel) : 0 ≤ BUS_PER_MW t := by
  cases t <;> norm_num [BUS_PER_MW]

/-- The TIER_FACTORS table only holds non-negative entries. -/
theorem TIER_FACTORS_nonneg (t : TierLevel) : 0 ≤ TIER_FACTORS t := by
  cases t <;> norm_num [TIER_FACTORS]

/-- The base hours per bus are non-negative for every study type. -/
theorem base_hours_per_bus_nonneg (s : StudyType) : 0 ≤ base_hours_per_bus s := by
  cases s <;> norm_num [base_hours_per_bus]

/-- The report multipliers are non-negative. -/
theorem REPORT_MULTIPLIERS_nonneg (f : ReportFormat) : 0 ≤ REPORT_MULTIPLIERS f := by
  cases f <;> norm_num [REPORT_MULTIPLIERS]

/-- Normalization preserves non-negativity of the allocation
fractions. -/
theorem allocations_nonneg (c : StudyCostConfig)
    (hs : 0 ≤ c.senior_allocation_input) (hm : 0 ≤ c.mid_allocation_input)
    (hj : 0 ≤ c.junior_allocation_input) :
    0 ≤ senior_allocation c ∧ 0 ≤ mid_allocation c ∧ 0 ≤ junior_allocation c := by
  have ht : 0 ≤ total_allocation c := add_nonneg (add_nonneg hs hm) hj
  refine ⟨?_, ?_, ?_⟩
  · unfold senior_allocation
    split
    · exact hs
    · exact div_nonneg hs ht
  · unfold mid_allocation
    split
    · exact hm
    · exact div_nonneg hm ht
  · unfold junior_allocation
    split
    · exact hj
    · exact div_nonneg hj ht

/-- With non-negative inputs, every field of a per-study record is
non-negative. -/
theorem study_result_nonneg (c : StudyCostConfig) (h : NonnegConfig c)
    (s : StudyType) :
    0 ≤ (study_result c s).hours ∧ 0 ≤ (study_result c s).senior_hours ∧
    0 ≤ (study_result c s).mid_hours ∧ 0 ≤ (study_result c s).junior_hours ∧
    0 ≤ (study_result c s).senior_cost ∧ 0 ≤ (study_result c s).mid_cost ∧
    0 ≤ (study_result c s).junior_cost ∧ 0 ≤ (study_result c s).total_cost := by
  obtain ⟨h1, h2, h3, h4, h5, h6, h7, h8, h9, h10, h11, h12, h13, h14, h15, h16, h17⟩ := h
  have harg : 0 ≤ total_load c * BUS_PER_MW c.tier_level * c.bus_calibration :=
    mul_nonneg (mul_nonneg (by unfold total_load; linarith) (BUS_PER_MW_nonneg c.tier_level)) h5
  have hb : (0 : ℚ) ≤ (estimated_buses c : ℚ) := by
    exact_mod_cast Int.ceil_nonneg harg
  have hcal : 0 ≤ calibration_factor c s := by
    cases s
    exacts [h6, h7, h8, h9]
  have hh : 0 ≤ study_hours c s := by
    unfold study_hours tier_complexity
    exact mul_nonneg (mul_nonneg (mul_nonneg hb (base_hours_per_bus_nonneg s)) hcal)
      (TIER_FACTORS_nonneg c.tier_level)
  have hmult : 0 ≤ rate_multiplier c := by
    unfold rate_multiplier
    split
    · exact h17
    · norm_num
  obtain ⟨ha1, ha2, ha3⟩ := allocations_nonneg c h10 h11 h12
  simp only [study_result]
  refine ⟨hh, mul_nonneg hh ha1, mul_nonneg hh ha2, mul_nonneg hh ha3, ?_, ?_, ?_, ?_⟩
  · exact mul_nonneg (mul_nonneg (mul_nonneg hh ha1) h13) hmult
  · exact mul_nonneg (mul_nonneg (mul_nonneg hh ha2) h14) hmult
  · exact mul_nonneg (mul_nonneg (mul_nonneg hh ha3) h15) hmult
  · have c1 := mul_nonneg (mul_nonneg (mul_nonneg hh ha1) h13) hmult
    have c2 := mul_nonneg (mul_nonneg (mul_nonneg hh ha2) h14) hmult
    have c3 := mul_nonneg (mul_nonneg (mul_nonneg hh ha3) h15) hmult
    exact add_nonneg (add_nonneg c1 c2) c3

/-- C7: with all numeric inputs non-negative, the bus count is the
ceiling of a non-negative quantity and hence a non-negative integer,
and every hour and monetary value of the result is non-negative. -/
theorem result_nonneg (c : StudyCostConfig) (h : NonnegConfig c) :
    0 ≤ (calculate_project_cost c).estimated_buses ∧
    0 ≤ total_load c * BUS_PER_MW c.tier_level * c.bus_calibration ∧
    (calculate_project_cost c).estimated_buses =
      ⌈total_load c * BUS_PER_MW c.tier_level * c.bus_calibration⌉ ∧
    0 ≤ (calculate_project_cost c).costs.total_study_cost ∧
    0 ≤ (calculate_project_cost c).costs.meeting_cost ∧
    0 ≤ (calculate_project_cost c).costs.report_cost ∧
    0 ≤ (calculate_project_cost c).costs.subtotal ∧
    0 ≤ (calculate_project_cost c).costs.margin_amount ∧
    0 ≤ (calculate_project_cost c).costs.total_cost ∧
    0 ≤ (calculate_project_cost c).costs.total_hours ∧
    ∀ p ∈ (calculate_project_cost c).studies,
      0 ≤ p.2.hours ∧ 0 ≤ p.2.senior_hours ∧ 0 ≤ p.2.mid_hours ∧
      0 ≤ p.2.junior_hours ∧ 0 ≤ p.2.senior_cost ∧ 0 ≤ p.2.mid_cost ∧
      0 ≤ p.2.junior_cost ∧ 0 ≤ p.2.total_cost := by
  have harg : 0 ≤ total_load c * BUS_PER_MW c.tier_level * c.bus_calibration :=
    mul_nonneg (mul_nonneg (by unfold total_load; have := h.1; have := h.2.1; have := h.2.2.1; linarith)
      (BUS_PER_MW_nonneg c.tier_level)) h.2.2.2.2.1
  have hstudy : 0 ≤ (calculate_project_cost c).costs.total_study_cost := by
    show 0 ≤ (((selected_studies c).map (fun s => (s, study_result c s))).map
      (fun p => p.2.total_cost)).sum
    rw [List.map_map]
    refine List.sum_nonneg ?_
    intro x hx
    rcases List.mem_map.mp hx with ⟨s, -, rfl⟩
    exact (study_result_nonneg c h s).2.2.2.2.2.2.2
  have hhours : 0 ≤ (calculate_project_cost c).costs.total_hours := by
    show 0 ≤ (((selected_studies c).map (fun s => (s, study_result c s))).map
      (fun p => p.2.hours)).sum
    rw [List.map_map]
    refine List.sum_nonneg ?_
    intro x hx
    rcases List.mem_map.mp hx with ⟨s, -, rfl⟩
    exact (study_result_nonneg c h s).1
  have hmeet : 0 ≤ (calculate_project_cost c).costs.meeting_cost :=
    mul_nonneg (Nat.cast_nonneg _) h.2.2.2.2.2.2.2.2.2.2.2.2.2.2.2.1
  have hreport : 0 ≤ (calculate_project_cost c).costs.report_cost :=
    mul_nonneg (by norm_num) (REPORT_MULTIPLIERS_nonneg c.report_format)
  have hsub : 0 ≤ (calculate_project_cost c).costs.subtotal :=
    add_nonneg (add_nonneg hstudy hmeet) hreport
  have hmarginq : 0 ≤ c.custom_margin / 100 :=
    div_nonneg h.2.2.2.1 (by norm_num)
  refine ⟨Int.ceil_nonneg harg, harg, rfl, hstudy, hmeet, hreport, hsub,
    mul_nonneg hsub hmarginq, mul_nonneg hsub (by linarith), hhours, ?_⟩
  intro p hp
  obtain ⟨-, hps⟩ := of_mem_studies c p hp
  rw [hps]
  exact study_result_nonneg c h p.1

/-- C7 witness: the result at the worked-example configuration has
non-negative total cost and total hours. -/
theorem result_nonneg_witness :
    0 ≤ (calculate_project_cost loadFlowOnly).costs.total_cost ∧
    0 ≤ (calculate_project_cost loadFlowOnly).costs.total_hours ∧
    0 ≤ (calculate_project_cost loadFlowOnly).estimated_buses := by
  have h := result_nonneg loadFlowOnly
    (by norm_num [NonnegConfig, loadFlowOnly, defaultNoStudies])
  exact ⟨h.2.2.2.2.2.2.2.2.1, h.2.2.2.2.2.2.2.2.2.1, h.1⟩

/-- The adjusted PUE is at least 1.1. -/
theorem adjustedPUE_ge (c : BusCountConfig) : (1.1 : ℚ) ≤ adjustedPUE c :=
  le_max_left _ _

/-- The adjusted PUE is positive. -/
theorem adjustedPUE_pos (c : BusCountConfig) : 0 < adjustedPUE c :=
  lt_of_lt_of_le (by norm_num) (adjustedPUE_ge c)

/-- The cooling multiplier is positive. -/
theorem coolingMult_pos (c : BusCountConfig) : 0 < coolingMult c := by
  unfold coolingMult
  split <;> norm_num

/-- The climate multiplier is positive. -/
theorem climateMult_pos (c : BusCountConfig) : 0 < climateMult c := by
  unfold climateMult
  split <;> norm_num

/-- For a positive load specification the derived IT load is
positive. -/
theorem itMW_pos (c : BusCountConfig) (h : 0 < c.load.loadMW) : 0 < itMW c := by
  unfold itMW
  cases hl : c.load with
  | itLoad mw =>
      rw [hl] at h
      simp only [LoadSpec.loadMW] at h
      exact h
  | facilityLoad mw =>
      rw [hl] at h
      simp only [LoadSpec.loadMW] at h
      exact div_pos h (adjustedPUE_pos c)

/-- For a positive load specification the derived total load is
positive. -/
theorem totalMW_pos (c : BusCountConfig) (h : 0 < c.load.loadMW) : 0 < totalMW c := by
  unfold totalMW
  cases hl : c.load with
  | itLoad mw =>
      rw [hl] at h
      simp only [LoadSpec.loadMW] at h
      exact mul_pos (adjustedPUE_pos c) h
  | facilityLoad mw =>
      rw [hl] at h
      simp only [LoadSpec.loadMW] at h
      exact h

/-- The non-IT load is non-negative for a positive load
specification. -/
theorem nonItMW_nonneg (c : BusCountConfig) (h : 0 < c.load.loadMW) :
    0 ≤ nonItMW c := by
  have hp := adjustedPUE_ge c
  unfold nonItMW totalMW itMW
  cases hl : c.load with
  | itLoad mw =>
      rw [hl] at h
      simp only [LoadSpec.loadMW] at h
      show 0 ≤ adjustedPUE c * mw - mw
      nlinarith
  | facilityLoad mw =>
      rw [hl] at h
      simp only [LoadSpec.loadMW] at h
      show 0 ≤ mw - mw / adjustedPUE c
      have hd : mw / adjustedPUE c ≤ mw := div_le_self h.le (by linarith)
      linarith

/-- The mechanical load is non-negative when the non-IT load is. -/
theorem mechMW_nonneg (c : BusCountConfig) (hni : 0 ≤ nonItMW c)
    (hmf : 0 ≤ c.mechanicalFraction) : 0 ≤ mechMW c := by
  unfold mechMW
  exact mul_nonneg (mul_nonneg (mul_nonneg hmf hni) (coolingMult_pos c).le)
    (climateMult_pos c).le

/-- The house load is non-negative when the non-IT load is and the
mechanical fraction is at most 0.9. -/
theorem houseMW_nonneg (c : BusCountConfig) (hni : 0 ≤ nonItMW c)
    (hmf1 : c.mechanicalFraction ≤ 9/10) : 0 ≤ houseMW c := by
  have hcm := coolingMult_pos c
  have hcl := climateMult_pos c
  have hne : coolingMult c * climateMult c ≠ 0 := ne_of_gt (mul_pos hcm hcl)
  unfold houseMW mechMW
  have hq : c.mechanicalFraction * nonItMW c * coolingMult c * climateMult c /
      (coolingMult c * climateMult c) = c.mechanicalFraction * nonItMW c := by
    field_simp
    ring
  rw [hq]
  nlinarith [mul_nonneg hni (by linarith : (0:ℚ) ≤ 1 - c.mechanicalFraction)]

/-- C9: for a fixed valid configuration, varying only the redundancy
tier, the total bus count under 2N is at least that under N+1, which is
at least that under N. -/
theorem redundancy_monotonicity (c : BusCountConfig) (h : ValidBusCountConfig c) :
    totalBuses { c with redundancyTier := RedundancyTier.Nplus1 } ≤
      totalBuses { c with redundancyTier := RedundancyTier.TwoN } ∧
    totalBuses { c with redundancyTier := RedundancyTier.N } ≤
      totalBuses { c with redundancyTier := RedundancyTier.Nplus1 } := by
  obtain ⟨hload, hups, htr, hlv, hpdu, hpf, -, hexp, hmf0, hmf1, hinc⟩ := h
  have hit : 0 < itMW c := itMW_pos c hload
  have htot : 0 < totalMW c := totalMW_pos c hload
  have hni : 0 ≤ nonItMW c := nonItMW_nonneg c hload
  have hT : 1 ≤ transformerCountN c := by
    have := Int.ceil_pos.mpr (div_pos htot (mul_pos htr hpf))
    unfold transformerCountN
    omega
  have hU : 1 ≤ upsCount c := by
    have := Int.ceil_pos.mpr (div_pos hit hups)
    unfold upsCount
    omega
  have hP : 1 ≤ pduCount c := by
    have := Int.ceil_pos.mpr (div_pos hit hpdu)
    unfold pduCount
    omega
  have hLit : 1 ≤ lvItCount c := by
    have := Int.ceil_pos.mpr (div_pos hit hlv)
    unfold lvItCount
    omega
  have hLm : 0 ≤ lvMechCount c :=
    Int.ceil_nonneg (div_nonneg (mechMW_nonneg c hni (by linarith)) hlv.le)
  have hLh : 0 ≤ lvHouseCount c :=
    Int.ceil_nonneg (div_nonneg (houseMW_nonneg c hni hmf1) hlv.le)
  have hL : 1 ≤ lvTotalCount c := by
    unfold lvTotalCount
    omega
  have hMV : 0 ≤ mvBusCount c := by
    have hincZ : 1 ≤ (c.utilityIncomers : ℤ) := by exact_mod_cast hinc
    have hb : 0 ≤ (c.mvBusesBase : ℤ) := Int.natCast_nonneg _
    unfold mvBusCount
    omega
  have hV : 0 ≤ voltageAdditions c := by
    unfold voltageAdditions
    split
    · rename_i hvl
      have h2 : (2 : ℤ) < (c.voltageLevels : ℤ) := by exact_mod_cast hvl
      have h3 : 0 ≤ transformerCountN c + 1 := by omega
      exact mul_nonneg (by omega) h3
    · exact le_refl 0
  have hG : 0 ≤ generatorAdditions c := by
    have hb : 0 ≤ (c.backupGenerators : ℤ) := Int.natCast_nonneg _
    unfold generatorAdditions
    omega
  have hKcomp : coreN c = mvBusCount c + transformerCountN c + lvTotalCount c +
      upsCount c + pduCount c + voltageAdditions c + generatorAdditions c := rfl
  -- rational versions of the component bounds
  have hTQ : (1 : ℚ) ≤ (transformerCountN c : ℚ) := by exact_mod_cast hT
  have hUQ : (1 : ℚ) ≤ (upsCount c : ℚ) := by exact_mod_cast hU
  have hPQ : (1 : ℚ) ≤ (pduCount c : ℚ) := by exact_mod_cast hP
  have hLQ : (1 : ℚ) ≤ (lvTotalCount c : ℚ) := by exact_mod_cast hL
  have hMVQ : (0 : ℚ) ≤ (mvBusCount c : ℚ) := by exact_mod_cast hMV
  have hVQ : (0 : ℚ) ≤ (voltageAdditions c : ℚ) := by exact_mod_cast hV
  have hGQ : (0 : ℚ) ≤ (generatorAdditions c : ℚ) := by exact_mod_cast hG
  have hcoreQ : (coreN c : ℚ) = (mvBusCount c : ℚ) + (transformerCountN c : ℚ) +
      (lvTotalCount c : ℚ) + (upsCount c : ℚ) + (pduCount c : ℚ) +
      (voltageAdditions c : ℚ) + (generatorAdditions c : ℚ) := by
    rw [hKcomp]
    push_cast
    ring
  have hKQ : (0 : ℚ) ≤ (coreN c : ℚ) := by
    rw [hcoreQ]
    linarith
  have e1 : totalBuses { c with redundancyTier := RedundancyTier.N } =
      ⌈(coreN c : ℚ) * c.expansionFactor⌉ := rfl
  have e2 : totalBuses { c with redundancyTier := RedundancyTier.Nplus1 } =
      ⌈((coreN c : ℚ) + 1) * c.expansionFactor * 1.15⌉ := rfl
  have e3 : totalBuses { c with redundancyTier := RedundancyTier.TwoN } =
      ⌈(2 * (mvBusCount c : ℚ) + 2 * (transformerCountN c : ℚ) +
        2 * (lvTotalCount c : ℚ) + 2 * (upsCount c : ℚ) +
        1.5 * (pduCount c : ℚ) +
        2 * ((voltageAdditions c : ℚ) + (generatorAdditions c : ℚ))) *
        c.expansionFactor⌉ := rfl
  constructor
  · rw [e2, e3]
    apply Int.ceil_mono
    have hinner : ((coreN c : ℚ) + 1) * 1.15 ≤ 2 * (mvBusCount c : ℚ) +
        2 * (transformerCountN c : ℚ) + 2 * (lvTotalCount c : ℚ) +
        2 * (upsCount c : ℚ) + 1.5 * (pduCount c : ℚ) +
        2 * ((voltageAdditions c : ℚ) + (generatorAdditions c : ℚ)) := by
      rw [hcoreQ]
      nlinarith
    calc ((coreN c : ℚ) + 1) * c.expansionFactor * 1.15
        = ((coreN c : ℚ) + 1) * 1.15 * c.expansionFactor := by ring
      _ ≤ (2 * (mvBusCount c : ℚ) + 2 * (transformerCountN c : ℚ) +
          2 * (lvTotalCount c : ℚ) + 2 * (upsCount c : ℚ) +
          1.5 * (pduCount c : ℚ) +
          2 * ((voltageAdditions c : ℚ) + (generatorAdditions c : ℚ))) *
          c.expansionFactor :=
        mul_le_mul_of_nonneg_right hinner (by linarith)
  · rw [e1, e2]
    apply Int.ceil_mono
    have hinner : (coreN c : ℚ) ≤ ((coreN c : ℚ) + 1) * 1.15 := by
      nlinarith
    calc (coreN c : ℚ) * c.expansionFactor
        ≤ ((coreN c : ℚ) + 1) * 1.15 * c.expansionFactor :=
          mul_le_mul_of_nonneg_right hinner (by linarith)
      _ = ((coreN c : ℚ) + 1) * c.expansionFactor * 1.15 := by ring

/-- C9 witness: the monotonicity chain at the spec's worked bus-count
example. -/
theorem redundancy_monotonicity_witness :
    totalBuses { busExample with redundancyTier := RedundancyTier.Nplus1 } ≤
      totalBuses { busExample with redundancyTier := RedundancyTier.TwoN } ∧
    totalBuses { busExample with redundancyTier := RedundancyTier.N } ≤
      totalBuses { busExample with redundancyTier := RedundancyTier.Nplus1 } :=
  redundancy_monotonicity busExample
    (by unfold ValidBusCountConfig; norm_num [busExample, LoadSpec.loadMW])

end DCBus
